import Mathlib

/-!
Verification of the software PWM controller in
`examples/03-pwm-control/pwm-control.c`.

The C program implements a software PWM generator: a worker thread
(`pwm_thread`) toggles a GPIO line high/low inside a fixed period, a
mutex-guarded accessor (`set_duty_cycle`) publishes the target duty cycle,
and three animation functions (`breathing_animation`, `sine_wave_animation`,
`strobe_animation`) compute successive duty-cycle values from static state.

The shallow embedding below translates each of those C functions into a Lean
definition.  Machine `int`/`long` values that stay small and non-negative are
modelled as `Nat` (duty cycles read under the invariant, nanosecond times);
values that may be negative (the raw argument of `set_duty_cycle`, the
direction of the breathing animation, C truthiness ints) as `Int`.  The
worker thread's interaction with the scheduler is modelled as an event trace:
each `gpiod_line_set_value` call and each `nano_sleep` call becomes one
event, and the reads of the `active` flag and of `duty_cycle` at each loop
head become an input schedule.  `float` phase arithmetic of the sine-wave
animation is modelled over the real numbers.
-/

namespace PwmControl

/-- C macro `PWM_FREQUENCY`: 1 kHz. -/
def PWM_FREQUENCY : Nat := 1000

/-- C macro `PWM_PERIOD_NS = 1000000000 / PWM_FREQUENCY`: period in nanoseconds. -/
def PWM_PERIOD_NS : Nat := 1000000000 / PWM_FREQUENCY

/-- The mutable fields of `pwm_control_t` that the claims are about:
`duty_cycle` (C `volatile int`) and `active` (C `volatile bool`).  The GPIO
line handle, the pthread handle and the mutex are resources with no
observable value of their own and are modelled by the event traces below. -/
structure PwmState where
  duty_cycle : Int
  active : Bool
deriving DecidableEq

/-- `set_duty_cycle(pwm, duty_cycle)`: clamps the argument into [0,100] with
two successive `if` statements, then stores it.  The returned `List String`
holds the diagnostics the call prints: the C function contains no
`perror`/`fprintf`, so it is `[]`. -/
def set_duty_cycle (pwm : PwmState) (duty_cycle : Int) : PwmState × List String :=
  let d1 : Int := if duty_cycle < 0 then 0 else duty_cycle
  let d2 : Int := if d1 > 100 then 100 else d1
  ({ pwm with duty_cycle := d2 }, [])

/-- The two fallible operations inside `pwm_init`:
`pthread_mutex_init` and `pthread_create`. -/
structure InitEnv where
  mutex_init_ok : Bool
  thread_create_ok : Bool
deriving DecidableEq

/-- `pwm_init(pwm, line)`: sets `duty_cycle = 0`, `active = true`, then
initializes the mutex and creates the worker thread.  Returns the resulting
state on success (`0` in C) or `none` on failure (`-1` in C), together with
the diagnostics printed by `perror`. -/
def pwm_init (env : InitEnv) : Option PwmState × List String :=
  if !env.mutex_init_ok then (none, ["Mutex init failed"])
  else if !env.thread_create_ok then (none, ["Thread creation failed"])
  else (some { duty_cycle := 0, active := true }, [])

/-- Whether `pwm_init` started the generation thread: `pthread_create` is
only reached after `pthread_mutex_init` succeeds, and itself must succeed. -/
def pwm_init_thread_started (env : InitEnv) : Bool :=
  env.mutex_init_ok && env.thread_create_ok

/-- `on_time_ns = (PWM_PERIOD_NS * duty) / 100` from `pwm_thread`
(C integer division; `duty` is read under the [0,100] invariant, so `Nat`). -/
def on_time_ns (duty : Nat) : Nat := (PWM_PERIOD_NS * duty) / 100

/-- `off_time_ns = PWM_PERIOD_NS - on_time_ns` from `pwm_thread`. -/
def off_time_ns (duty : Nat) : Nat := PWM_PERIOD_NS - on_time_ns duty

/-- Observable actions of the worker thread: a `gpiod_line_set_value`
call with the written level, or a `nano_sleep` call with its duration. -/
inductive Event
  | write (value : Int)
  | sleep (ns : Nat)
deriving DecidableEq

/-- One iteration of the `while (pwm->active)` loop body in `pwm_thread`,
after the locked read of `duty`: if `duty > 0`, set the line high and sleep
for `on_time_ns`; if `duty < 100`, set the line low and sleep for
`off_time_ns`. -/
def pwm_cycle (duty : Nat) : List Event :=
  (if duty > 0 then [Event.write 1, Event.sleep (on_time_ns duty)] else [])
    ++ (if duty < 100 then [Event.write 0, Event.sleep (off_time_ns duty)] else [])

/-- The `pwm_thread` loop as a trace function.  Each schedule entry is one
loop-head visit: the value read from `pwm->active` and the value of
`pwm->duty_cycle` read under the mutex.  While `active` reads `true` the
body emits one `pwm_cycle`; as soon as it reads `false` the loop exits and
the thread performs the single final `gpiod_line_set_value(pwm->line, 0)`
before returning.  (An exhausted schedule also stands for loop exit.) -/
def pwm_thread_run : List (Bool × Nat) → List Event
  | [] => [Event.write 0]
  | (a, d) :: rest =>
      if a then pwm_cycle d ++ pwm_thread_run rest else [Event.write 0]

/-- Total nanoseconds a thread trace spends suspended in `nano_sleep`. -/
def sleep_total (es : List Event) : Nat :=
  es.foldr (fun e acc => match e with | Event.sleep t => t + acc | _ => acc) 0

/-- The three statements of `pwm_cleanup`, in program order. -/
inductive CleanupAct
  | setActiveFalse
  | joinThread
  | destroyMutex
deriving DecidableEq

/-- `pwm_cleanup(pwm)`: sets `pwm->active = false`, then `pthread_join`s the
generation thread, then destroys the mutex, and only then returns. -/
def pwm_cleanup_acts : List CleanupAct :=
  [CleanupAct.setActiveFalse, CleanupAct.joinThread, CleanupAct.destroyMutex]

/-- Per-iteration observation for the write-failure claims: the loop body of
`pwm_thread` with the return values `w1`, `w2` of its two
`gpiod_line_set_value` calls made explicit (0 on success, -1 on failure).
The C code never binds or tests those return values and contains no
`perror`/`fprintf` and no `break`/`return`, so the emitted events, the
printed diagnostics and the loop continuation do not depend on them. -/
structure CycleResult where
  events : List Event
  logs : List String
  exited : Bool
deriving DecidableEq

/-- One iteration of the `pwm_thread` loop body with explicit write results. -/
def pwm_cycle_checked (duty : Nat) (_w1 _w2 : Int) : CycleResult :=
  { events := pwm_cycle duty, logs := [], exited := false }

/-- State of the two `static int` locals of `breathing_animation`:
`(brightness, direction)`. -/
def breathing_step : Int × Int → Int × Int := fun s =>
  let brightness := s.1 + s.2 * 2
  if brightness ≥ 100 then (100, -1)
  else if brightness ≤ 0 then (0, 1)
  else (brightness, s.2)

/-- The `(brightness, direction)` state after `n` calls of
`breathing_animation`, starting from the initializers `(0, 1)`. -/
def breathing_state : Nat → Int × Int
  | 0 => (0, 1)
  | n + 1 => breathing_step (breathing_state n)

/-- The duty cycle published by the `n`-th call of `breathing_animation`:
`set_duty_cycle(pwm, brightness)` with the updated brightness (already in
[0,100], so the clamp is the identity on it). -/
def breathing_pub (n : Nat) : Int := (breathing_state n).1

/-- Closed form of the breathing sequence within one 100-call cycle. -/
def breathing_spec_val (m : Nat) : Int :=
  if m ≤ 50 then 2 * (m : Int) else 200 - 2 * (m : Int)

/-- State of the two `static int` locals of `strobe_animation` plus the
published duty cycle (`pwm->duty_cycle`, initially 0 from `pwm_init`). -/
structure StrobeState where
  state : Int
  counter : Int
  duty : Int
deriving DecidableEq

/-- One call of `strobe_animation`: `if (++counter >= 5)` reset the counter,
toggle `state` with C logical negation, and publish `state ? 100 : 0`.  The
returned `Bool` records whether this call invoked `set_duty_cycle`. -/
def strobe_step (s : StrobeState) : StrobeState × Bool :=
  let c := s.counter + 1
  if c ≥ 5 then
    let st : Int := if s.state = 0 then 1 else 0
    ({ state := st, counter := 0, duty := if st = 0 then 0 else 100 }, true)
  else ({ s with counter := c }, false)

/-- The strobe state after `n` calls, from initializers
`state = 0, counter = 0` and initial duty cycle 0. -/
def strobe_state : Nat → StrobeState
  | 0 => ⟨0, 0, 0⟩
  | n + 1 => (strobe_step (strobe_state n)).1

/-- Whether call number `n + 1` of `strobe_animation` invokes
`set_duty_cycle` (and flips `state`). -/
def strobe_published (n : Nat) : Bool := (strobe_step (strobe_state n)).2

/-- The C cast `(int)` applied to a rational value: truncation toward zero. -/
def c_truncate (q : ℚ) : ℤ := if q < 0 then -Int.floor (-q) else Int.floor q

/-- `sine_wave_animation` brightness as a function of the sine value `s`:
`(int)(50 * (1 + sin(phase)))` with `s = sin(phase)`.  The `float`
arithmetic of the C code is modelled exactly over the rationals. -/
def sine_brightness (s : ℚ) : ℤ := c_truncate (50 * (1 + s))

/-- Phase update of `sine_wave_animation`, modelled over the reals:
`phase += 0.1; if (phase > 2 * M_PI) phase -= 2 * M_PI`.  Stated as a
relation between the old and the new phase. -/
def sine_phase_step (p p2 : ℝ) : Prop :=
  (p + 1 / 10 > 2 * Real.pi ∧ p2 = p + 1 / 10 - 2 * Real.pi) ∨
    (¬p + 1 / 10 > 2 * Real.pi ∧ p2 = p + 1 / 10)

/-- The fallible startup operations of `main` and `pwm_init`, in the order
the code attempts them. -/
structure MainEnv where
  chip_ok : Bool
  led_line_ok : Bool
  button_line_ok : Bool
  output_req_ok : Bool
  input_req_ok : Bool
  mutex_init_ok : Bool
  thread_create_ok : Bool
deriving DecidableEq

/-- Outcome of the startup sequence of `main`: either a fatal diagnostic
with the program exit status (the failure paths jump to the cleanup labels
and fall through to `return 0`, except the chip-open failure which is
`return 1`), or entry into the main control loop. -/
inductive StartupOutcome
  | fatal (diagnostic : String) (exitCode : Int)
  | enterLoop
deriving DecidableEq

/-- The startup sequence of `main`, lines 252-291 of `pwm-control.c`. -/
def main_startup (env : MainEnv) : StartupOutcome :=
  if !env.chip_ok then StartupOutcome.fatal "Failed to open GPIO chip" 1
  else if !env.led_line_ok then StartupOutcome.fatal "Failed to get LED line" 0
  else if !env.button_line_ok then StartupOutcome.fatal "Failed to get button line" 0
  else if !env.output_req_ok then StartupOutcome.fatal "Failed to request LED output" 0
  else if !env.input_req_ok then StartupOutcome.fatal "Failed to request button input" 0
  else if (pwm_init ⟨env.mutex_init_ok, env.thread_create_ok⟩).1 = none then
    StartupOutcome.fatal "Failed to initialize PWM" 0
  else StartupOutcome.enterLoop

/-- The exit status of `main`: the chip-open failure returns 1; every other
path (later failures via the `goto` cleanup chain, and normal shutdown of
the control loop) falls through to `return 0`. -/
def main_exit_code (env : MainEnv) : Int :=
  match main_startup env with
  | StartupOutcome.fatal _ code => code
  | StartupOutcome.enterLoop => 0

/-- Number of `gpiod_line_set_value(line, v)` calls in an event trace. -/
def count_writes (v : Int) : List Event → Nat
  | [] => 0
  | Event.write w :: rest => (if w = v then 1 else 0) + count_writes v rest
  | Event.sleep _ :: rest => count_writes v rest

/-- C1: `set_duty_cycle` stores exactly `min 100 (max 0 v)`; `-5` clamps to 0
and `150` clamps to 100; `pwm_init` initializes `duty_cycle` to 0; every
write of `duty_cycle` keeps it in [0,100]; and `set_duty_cycle` prints no
diagnostic, so an out-of-range argument is never reported as an error. -/
theorem C1_duty_cycle_clamped :
    (∀ (s : PwmState) (v : Int), (set_duty_cycle s v).1.duty_cycle = min 100 (max 0 v))
  ∧ ((set_duty_cycle ⟨50, true⟩ (-5)).1.duty_cycle = 0)
  ∧ ((set_duty_cycle ⟨50, true⟩ 150).1.duty_cycle = 100)
  ∧ ((pwm_init ⟨true, true⟩).1 = some ⟨0, true⟩)
  ∧ (∀ (s : PwmState) (v : Int),
      0 ≤ (set_duty_cycle s v).1.duty_cycle ∧ (set_duty_cycle s v).1.duty_cycle ≤ 100)
  ∧ (∀ (s : PwmState) (v : Int), (set_duty_cycle s v).2 = []) := by
  refine ⟨?_, by decide, by decide, by decide, ?_, fun s v => rfl⟩
  · intro s v
    simp only [set_duty_cycle]
    split_ifs <;> omega
  · intro s v
    simp only [set_duty_cycle]
    split_ifs <;> omega

/-- C2: for every duty cycle in [0,100], `on_time_ns + off_time_ns` is
exactly the period, and the integer-division truncation of `on_time_ns`
is below one time unit of error (here it is even exact, since the period
is a multiple of 100). -/
theorem C2_on_off_partition_period (d : Nat) (hd : d ≤ 100) :
    on_time_ns d + off_time_ns d = PWM_PERIOD_NS
  ∧ 100 * on_time_ns d = PWM_PERIOD_NS * d
  ∧ PWM_PERIOD_NS * d ≤ 100 * on_time_ns d + 99 := by
  simp only [on_time_ns, off_time_ns, PWM_PERIOD_NS, PWM_FREQUENCY]
  omega

/-- Witness for C2 at the concrete duty cycle 25. -/
theorem C2_witness :
    on_time_ns 25 + off_time_ns 25 = PWM_PERIOD_NS
  ∧ 100 * on_time_ns 25 = PWM_PERIOD_NS * 25
  ∧ PWM_PERIOD_NS * 25 ≤ 100 * on_time_ns 25 + 99 :=
  C2_on_off_partition_period 25 (by norm_num)

/-- C3: in each cycle the high write and its sleep occur exactly when the
high phase is non-empty, the low write and its sleep exactly when the low
phase is non-empty; duty 0 gives only a full-period low phase, duty 100
only a full-period high phase; no zero-length sleep is issued; and each
level is written at most once per cycle (no spurious toggle). -/
theorem C3_cycle_phases (d : Nat) (hd : d ≤ 100) :
    pwm_cycle d
      = (if 0 < on_time_ns d then [Event.write 1, Event.sleep (on_time_ns d)] else [])
        ++ (if 0 < off_time_ns d then [Event.write 0, Event.sleep (off_time_ns d)] else [])
  ∧ pwm_cycle 0 = [Event.write 0, Event.sleep PWM_PERIOD_NS]
  ∧ pwm_cycle 100 = [Event.write 1, Event.sleep PWM_PERIOD_NS]
  ∧ (∀ t, Event.sleep t ∈ pwm_cycle d → 0 < t)
  ∧ count_writes 1 (pwm_cycle d) ≤ 1
  ∧ count_writes 0 (pwm_cycle d) ≤ 1 := by
  have hon : 0 < on_time_ns d ↔ 0 < d := by
    simp only [on_time_ns, PWM_PERIOD_NS, PWM_FREQUENCY]
    omega
  have hoff : 0 < off_time_ns d ↔ d < 100 := by
    simp only [off_time_ns, on_time_ns, PWM_PERIOD_NS, PWM_FREQUENCY]
    omega
  refine ⟨?_, by decide, by decide, ?_, ?_, ?_⟩
  · rw [pwm_cycle]
    by_cases h0 : 0 < d
    · rw [if_pos h0, if_pos (hon.mpr h0)]
      by_cases h100 : d < 100
      · rw [if_pos h100, if_pos (hoff.mpr h100)]
      · rw [if_neg h100, if_neg (fun hc => h100 (hoff.mp hc))]
    · rw [if_neg h0, if_neg (fun hc => h0 (hon.mp hc))]
      by_cases h100 : d < 100
      · rw [if_pos h100, if_pos (hoff.mpr h100)]
      · rw [if_neg h100, if_neg (fun hc => h100 (hoff.mp hc))]
  · intro t ht
    rw [pwm_cycle] at ht
    rcases List.mem_append.mp ht with h | h
    · split_ifs at h with hc
      · simp only [List.mem_cons, List.not_mem_nil, or_false] at h
        rcases h with h | h
        · exact absurd h (by simp)
        · have ht2 := Event.sleep.inj h
          exact ht2 ▸ hon.mpr hc
      · exact absurd h (List.not_mem_nil _)
    · split_ifs at h with hc
      · simp only [List.mem_cons, List.not_mem_nil, or_false] at h
        rcases h with h | h
        · exact absurd h (by simp)
        · have ht2 := Event.sleep.inj h
          exact ht2 ▸ hoff.mpr hc
      · exact absurd h (List.not_mem_nil _)
  · rw [pwm_cycle]
    split_ifs <;> simp [count_writes]
  · rw [pwm_cycle]
    split_ifs <;> simp [count_writes]

/-- Witness for C3 at the concrete duty cycle 37. -/
theorem C3_witness :
    pwm_cycle 37
      = (if 0 < on_time_ns 37 then [Event.write 1, Event.sleep (on_time_ns 37)] else [])
        ++ (if 0 < off_time_ns 37 then [Event.write 0, Event.sleep (off_time_ns 37)] else [])
  ∧ pwm_cycle 0 = [Event.write 0, Event.sleep PWM_PERIOD_NS]
  ∧ pwm_cycle 100 = [Event.write 1, Event.sleep PWM_PERIOD_NS]
  ∧ (∀ t, Event.sleep t ∈ pwm_cycle 37 → 0 < t)
  ∧ count_writes 1 (pwm_cycle 37) ≤ 1
  ∧ count_writes 0 (pwm_cycle 37) ≤ 1 :=
  C3_cycle_phases 37 (by norm_num)

/-- A thread trace is never empty: the loop always ends in the final write. -/
theorem pwm_thread_run_ne_nil (sched : List (Bool × Nat)) : pwm_thread_run sched ≠ [] := by
  cases sched with
  | nil => simp [pwm_thread_run]
  | cons p rest =>
      obtain ⟨a, d⟩ := p
      rw [pwm_thread_run]
      split_ifs with h
      · intro hc
        rcases List.append_eq_nil.mp hc with ⟨-, h2⟩
        exact pwm_thread_run_ne_nil rest h2
      · simp

/-- Every thread trace ends with the final `gpiod_line_set_value(line, 0)`. -/
theorem pwm_thread_run_getLast (sched : List (Bool × Nat)) :
    (pwm_thread_run sched).getLast? = some (Event.write 0) := by
  induction sched with
  | nil => rfl
  | cons p rest ih =>
      obtain ⟨a, d⟩ := p
      rw [pwm_thread_run]
      split_ifs with h
      · rw [List.getLast?_append_of_ne_nil _ (pwm_thread_run_ne_nil rest)]
        exact ih
      · rfl

/-- C4: once the loop head reads `active = false`, the thread performs no
further cycle (no write, no sleep) except the single final write of 0; every
complete cycle suspends for exactly one period, so the `false` read comes
within one period of the flag flip; every trace ends with the final write of
0; and in `pwm_cleanup` the flag clear precedes the `pthread_join`, which
precedes the mutex destruction and the return, so the line handle outlives
every write of the generation thread. -/
theorem C4_shutdown_joins_within_period (d : Nat) (hd : d ≤ 100)
    (rest : List (Bool × Nat)) :
    pwm_thread_run ((false, d) :: rest) = [Event.write 0]
  ∧ sleep_total (pwm_cycle d) = PWM_PERIOD_NS
  ∧ (∀ sched, (pwm_thread_run sched).getLast? = some (Event.write 0))
  ∧ pwm_cleanup_acts.indexOf CleanupAct.setActiveFalse
      < pwm_cleanup_acts.indexOf CleanupAct.joinThread
  ∧ pwm_cleanup_acts.indexOf CleanupAct.joinThread
      < pwm_cleanup_acts.indexOf CleanupAct.destroyMutex
  ∧ pwm_cleanup_acts.indexOf CleanupAct.joinThread < pwm_cleanup_acts.length := by
  refine ⟨rfl, ?_, pwm_thread_run_getLast, by decide, by decide, by decide⟩
  rw [pwm_cycle]
  split_ifs with h0 h100 h100 <;>
    simp only [sleep_total, List.foldr_append, List.foldr_cons, List.foldr_nil,
      on_time_ns, off_time_ns, PWM_PERIOD_NS, PWM_FREQUENCY] <;>
    omega

/-- Witness for C4 at duty cycle 30 with an empty residual schedule. -/
theorem C4_witness :
    pwm_thread_run [(false, 30)] = [Event.write 0]
  ∧ sleep_total (pwm_cycle 30) = PWM_PERIOD_NS
  ∧ (∀ sched, (pwm_thread_run sched).getLast? = some (Event.write 0))
  ∧ pwm_cleanup_acts.indexOf CleanupAct.setActiveFalse
      < pwm_cleanup_acts.indexOf CleanupAct.joinThread
  ∧ pwm_cleanup_acts.indexOf CleanupAct.joinThread
      < pwm_cleanup_acts.indexOf CleanupAct.destroyMutex
  ∧ pwm_cleanup_acts.indexOf CleanupAct.joinThread < pwm_cleanup_acts.length :=
  C4_shutdown_joins_within_period 30 (by norm_num) []

set_option maxRecDepth 40000 in
/-- The breathing state is periodic with period 100 calls. -/
theorem breathing_state_add_100 (n : Nat) :
    breathing_state (n + 100) = breathing_state n := by
  induction n with
  | zero => decide
  | succ k ih =>
      have e : k + 1 + 100 = (k + 100) + 1 := by omega
      rw [e]
      show breathing_step (breathing_state (k + 100)) = breathing_step (breathing_state k)
      rw [ih]

/-- The breathing state only depends on the call count modulo 100. -/
theorem breathing_state_mod (n : Nat) :
    breathing_state n = breathing_state (n % 100) := by
  have key : ∀ q r, breathing_state (100 * q + r) = breathing_state r := by
    intro q
    induction q with
    | zero => intro r; simp
    | succ k ih =>
        intro r
        have e : 100 * (k + 1) + r = (100 * k + r) + 100 := by ring
        rw [e, breathing_state_add_100, ih]
  conv_lhs => rw [show n = 100 * (n / 100) + n % 100 from (Nat.div_add_mod n 100).symm]
  exact key _ _

set_option maxRecDepth 40000 in
/-- Closed form of the breathing state within one period. -/
theorem breathing_state_closed : ∀ r : Fin 100,
    breathing_state r.1
      = (breathing_spec_val r.1, if r.1 < 50 then 1 else -1) := by decide

/-- Per-call difference of the closed-form breathing sequence. -/
theorem breathing_spec_val_diff : ∀ r : Fin 100,
    breathing_spec_val ((r.1 + 1) % 100) - breathing_spec_val r.1 = 2 ∨
    breathing_spec_val ((r.1 + 1) % 100) - breathing_spec_val r.1 = -2 := by decide

/-- The closed-form direction flips exactly when the new value is a clamp
boundary. -/
theorem breathing_spec_flip : ∀ r : Fin 100,
    ((if (r.1 + 1) % 100 < 50 then (1 : Int) else -1) ≠ (if r.1 < 50 then (1 : Int) else -1)
      ↔ (breathing_spec_val ((r.1 + 1) % 100) = 100
          ∨ breathing_spec_val ((r.1 + 1) % 100) = 0)) := by decide

/-- C5: from `brightness = 0, direction = +1` with step 2, the published
sequence follows the closed form 2,4,...,100,98,...,0 with period 100,
changes by exactly 2 per call, and the direction reverses exactly at the
calls that publish the clamp boundaries 100 and 0. -/
theorem C5_breathing_sequence (n : Nat) :
    breathing_pub n = breathing_spec_val (n % 100)
  ∧ breathing_pub (n + 100) = breathing_pub n
  ∧ (breathing_pub (n + 1) - breathing_pub n = 2
      ∨ breathing_pub (n + 1) - breathing_pub n = -2)
  ∧ ((breathing_state (n + 1)).2 ≠ (breathing_state n).2
      ↔ (breathing_pub (n + 1) = 100 ∨ breathing_pub (n + 1) = 0)) := by
  have hr : n % 100 < 100 := Nat.mod_lt _ (by norm_num)
  have hm1 : (n + 1) % 100 = (n % 100 + 1) % 100 := by omega
  have e1 : breathing_state n
      = (breathing_spec_val (n % 100), if n % 100 < 50 then 1 else -1) := by
    rw [breathing_state_mod]
    exact breathing_state_closed ⟨_, hr⟩
  have hr1 : (n % 100 + 1) % 100 < 100 := Nat.mod_lt _ (by norm_num)
  have e2 : breathing_state (n + 1)
      = (breathing_spec_val ((n % 100 + 1) % 100),
          if (n % 100 + 1) % 100 < 50 then 1 else -1) := by
    rw [breathing_state_mod, hm1]
    exact breathing_state_closed ⟨_, hr1⟩
  refine ⟨?_, ?_, ?_, ?_⟩
  · rw [breathing_pub, e1]
  · rw [breathing_pub, breathing_pub, breathing_state_add_100]
  · rw [breathing_pub, breathing_pub, e1, e2]
    exact breathing_spec_val_diff ⟨_, hr⟩
  · rw [breathing_pub, e1, e2]
    exact breathing_spec_flip ⟨_, hr⟩

set_option maxRecDepth 40000 in
/-- The strobe state is periodic with period 10 calls. -/
theorem strobe_state_add_10 (n : Nat) :
    strobe_state (n + 10) = strobe_state n := by
  induction n with
  | zero => decide
  | succ k ih =>
      have e : k + 1 + 10 = (k + 10) + 1 := by omega
      rw [e]
      show (strobe_step (strobe_state (k + 10))).1 = (strobe_step (strobe_state k)).1
      rw [ih]

/-- The strobe state only depends on the call count modulo 10. -/
theorem strobe_state_mod (n : Nat) :
    strobe_state n = strobe_state (n % 10) := by
  have key : ∀ q r, strobe_state (10 * q + r) = strobe_state r := by
    intro q
    induction q with
    | zero => intro r; simp
    | succ k ih =>
        intro r
        have e : 10 * (k + 1) + r = (10 * k + r) + 10 := by ring
        rw [e, strobe_state_add_10, ih]
  conv_lhs => rw [show n = 10 * (n / 10) + n % 10 from (Nat.div_add_mod n 10).symm]
  exact key _ _

/-- Closed form of the strobe state within one period. -/
theorem strobe_state_closed : ∀ r : Fin 10,
    strobe_state r.1
      = ⟨if r.1 < 5 then 0 else 1, (r.1 : Int) % 5, if r.1 < 5 then 0 else 100⟩ := by decide

/-- The closed-form strobe `state` flips exactly at every fifth call. -/
theorem strobe_closed_flip : ∀ r : Fin 10,
    ((if (r.1 + 1) % 10 < 5 then (0 : Int) else 1) ≠ (if r.1 < 5 then (0 : Int) else 1)
      ↔ r.1 % 5 = 4) := by decide

/-- C6: with toggle-count 5 from `counter = 0, state = 0` and initial duty
cycle 0, the duty cycle is 0 for five consecutive calls then 100 for five
consecutive calls with period 10, takes no intermediate value, and exactly
one call in five (the one with `n % 5 = 4`, i.e. every fifth call) invokes
`set_duty_cycle` and flips `state`. -/
theorem C6_strobe_sequence (n : Nat) :
    (strobe_state n).duty = (if n % 10 < 5 then 0 else 100)
  ∧ ((strobe_state n).duty = 0 ∨ (strobe_state n).duty = 100)
  ∧ (strobe_published n = true ↔ n % 5 = 4)
  ∧ ((strobe_state (n + 1)).state ≠ (strobe_state n).state ↔ n % 5 = 4)
  ∧ strobe_state (n + 10) = strobe_state n := by
  have hr : n % 10 < 10 := Nat.mod_lt _ (by norm_num)
  have hm1 : (n + 1) % 10 = (n % 10 + 1) % 10 := by omega
  have e1 : strobe_state n
      = ⟨if n % 10 < 5 then 0 else 1, ((n % 10 : Nat) : Int) % 5,
          if n % 10 < 5 then 0 else 100⟩ := by
    rw [strobe_state_mod]
    exact strobe_state_closed ⟨_, hr⟩
  have hr1 : (n % 10 + 1) % 10 < 10 := Nat.mod_lt _ (by norm_num)
  have e2 : strobe_state (n + 1)
      = ⟨if (n % 10 + 1) % 10 < 5 then 0 else 1, (((n % 10 + 1) % 10 : Nat) : Int) % 5,
          if (n % 10 + 1) % 10 < 5 then 0 else 100⟩ := by
    rw [strobe_state_mod, hm1]
    exact strobe_state_closed ⟨_, hr1⟩
  refine ⟨?_, ?_, ?_, ?_, strobe_state_add_10 n⟩
  · rw [e1]
  · rw [e1]
    split_ifs <;> simp
  · rw [strobe_published, e1]
    simp only [strobe_step]
    dsimp only
    by_cases h : ((n % 10 : Nat) : Int) % 5 + 1 ≥ 5
    · rw [if_pos h]
      exact iff_of_true rfl (by omega)
    · rw [if_neg h]
      exact iff_of_false (by simp) (by omega)
  · rw [e1, e2]
    dsimp only
    have hf := strobe_closed_flip ⟨n % 10, hr⟩
    dsimp only at hf
    constructor
    · intro hne
      have h4 := hf.mp hne
      omega
    · intro h5
      exact hf.mpr (by omega)

/-- C7: the sine brightness takes the values 50, 100 and 0 at the sine
values of phases 0, pi/2 and 3pi/2; the phase update keeps the phase in
[0, 2pi], lands strictly inside [0, 2pi) whenever it wraps, and the sine of
the new phase always equals the sine of the unwrapped advanced phase, so
the output has no discontinuity beyond the wrap point. -/
theorem C7_sine_wave (p p2 : ℝ) (hp0 : 0 ≤ p) (hp2 : p ≤ 2 * Real.pi)
    (hstep : sine_phase_step p p2) :
    Real.sin 0 = 0 ∧ sine_brightness 0 = 50
  ∧ Real.sin (Real.pi / 2) = 1 ∧ sine_brightness 1 = 100
  ∧ Real.sin (3 * Real.pi / 2) = -1 ∧ sine_brightness (-1) = 0
  ∧ 0 ≤ p2 ∧ p2 ≤ 2 * Real.pi
  ∧ (2 * Real.pi < p + 1 / 10 → p2 < 2 * Real.pi)
  ∧ Real.sin p2 = Real.sin (p + 1 / 10) := by
  have hpi := Real.pi_gt_three
  have hq0 : sine_brightness 0 = 50 := by norm_num [sine_brightness, c_truncate]
  have hq1 : sine_brightness 1 = 100 := by norm_num [sine_brightness, c_truncate]
  have hqm1 : sine_brightness (-1) = 0 := by norm_num [sine_brightness, c_truncate]
  have hs32 : Real.sin (3 * Real.pi / 2) = -1 := by
    rw [show (3 : ℝ) * Real.pi / 2 = -(Real.pi / 2) + 2 * Real.pi from by ring,
      Real.sin_add_two_pi, Real.sin_neg, Real.sin_pi_div_two]
  rcases hstep with ⟨hgt, he⟩ | ⟨hle, he⟩
  · subst he
    exact ⟨Real.sin_zero, hq0, Real.sin_pi_div_two, hq1, hs32, hqm1, by linarith, by linarith,
      fun _ => by linarith, Real.sin_sub_two_pi _⟩
  · subst he
    push_neg at hle
    exact ⟨Real.sin_zero, hq0, Real.sin_pi_div_two, hq1, hs32, hqm1, by linarith, by linarith,
      fun h => by linarith, rfl⟩

/-- Witness for C7: a step from phase `2 * pi`, which wraps to `1 / 10`. -/
theorem C7_witness :
    Real.sin 0 = 0 ∧ sine_brightness 0 = 50
  ∧ Real.sin (Real.pi / 2) = 1 ∧ sine_brightness 1 = 100
  ∧ Real.sin (3 * Real.pi / 2) = -1 ∧ sine_brightness (-1) = 0
  ∧ (0 : ℝ) ≤ 1 / 10 ∧ (1 / 10 : ℝ) ≤ 2 * Real.pi
  ∧ (2 * Real.pi < 2 * Real.pi + 1 / 10 → (1 / 10 : ℝ) < 2 * Real.pi)
  ∧ Real.sin (1 / 10) = Real.sin (2 * Real.pi + 1 / 10) :=
  C7_sine_wave (2 * Real.pi) (1 / 10) (by positivity) le_rfl
    (Or.inl ⟨by linarith, by ring⟩)

/-- C8: every startup acquisition failure is fatal: the main loop is entered
exactly when every acquisition succeeds, each failure produces the
diagnostic naming the failed operation, a `pwm_init` failure is exactly a
mutex-init or thread-creation failure, and after a failed `pwm_init` no
generation thread is running. -/
theorem C8_startup_failures_fatal (c l b o i m t : Bool) :
    (main_startup ⟨c, l, b, o, i, m, t⟩ = StartupOutcome.enterLoop
      ↔ (c = true ∧ l = true ∧ b = true ∧ o = true ∧ i = true ∧ m = true ∧ t = true))
  ∧ (c = false →
      main_startup ⟨c, l, b, o, i, m, t⟩ = StartupOutcome.fatal "Failed to open GPIO chip" 1)
  ∧ (c = true → l = false →
      main_startup ⟨c, l, b, o, i, m, t⟩ = StartupOutcome.fatal "Failed to get LED line" 0)
  ∧ (c = true → l = true → b = false →
      main_startup ⟨c, l, b, o, i, m, t⟩ = StartupOutcome.fatal "Failed to get button line" 0)
  ∧ (c = true → l = true → b = true → o = false →
      main_startup ⟨c, l, b, o, i, m, t⟩
        = StartupOutcome.fatal "Failed to request LED output" 0)
  ∧ (c = true → l = true → b = true → o = true → i = false →
      main_startup ⟨c, l, b, o, i, m, t⟩
        = StartupOutcome.fatal "Failed to request button input" 0)
  ∧ (c = true → l = true → b = true → o = true → i = true → (m = false ∨ t = false) →
      main_startup ⟨c, l, b, o, i, m, t⟩ = StartupOutcome.fatal "Failed to initialize PWM" 0)
  ∧ ((pwm_init ⟨m, t⟩).1 = none ↔ (m = false ∨ t = false))
  ∧ ((pwm_init ⟨m, t⟩).1 = none → pwm_init_thread_started ⟨m, t⟩ = false) := by
  cases c <;> cases l <;> cases b <;> cases o <;> cases i <;> cases m <;> cases t <;>
    simp [main_startup, pwm_init, pwm_init_thread_started]

/-- Witness for C8: a failed chip open is fatal with its diagnostic. -/
theorem C8_witness :
    main_startup ⟨false, true, true, true, true, true, true⟩
      = StartupOutcome.fatal "Failed to open GPIO chip" 1 :=
  (C8_startup_failures_fatal false true true true true true true).2.1 rfl

/-- C9 counterexample: in a cycle with duty 50 whose first
`gpiod_line_set_value` returns -1 (a failed write), the loop body prints no
diagnostic at all, refuting the claim that the failure is logged/reported
(`pwm_thread` discards the return values of its write calls). -/
theorem C9_counterexample :
    ((-1 : Int) ≠ 0)
  ∧ (pwm_cycle_checked 50 (-1) 0).logs = []
  ∧ (pwm_cycle_checked 50 (-1) 0).exited = false :=
  ⟨by decide, rfl, rfl⟩

/-- C9 amended: a failed line write is silently ignored, not logged; the
generation loop is not terminated, no diagnostic is produced, and the next
cycle proceeds exactly as if the write had succeeded, so at most the one
cycle is affected per failed write. -/
theorem C9_write_failure_ignored (d : Nat) (w1 w2 : Int) :
    (pwm_cycle_checked d w1 w2).exited = false
  ∧ (pwm_cycle_checked d w1 w2).logs = []
  ∧ (pwm_cycle_checked d w1 w2).events = pwm_cycle d
  ∧ pwm_cycle_checked d w1 w2 = pwm_cycle_checked d 0 0 :=
  ⟨rfl, rfl, rfl, rfl⟩

/-- C10: the exit status distinguishes only the chip-open failure (status
1); every later acquisition failure takes the `goto` cleanup chain and
falls through to `return 0`, the same status as a normal shutdown. -/
theorem C10_exit_status (c l b o i m t : Bool) :
    (main_exit_code ⟨c, l, b, o, i, m, t⟩ = 1 ↔ c = false)
  ∧ (c = true → main_exit_code ⟨c, l, b, o, i, m, t⟩ = 0) := by
  cases c <;> cases l <;> cases b <;> cases o <;> cases i <;> cases m <;> cases t <;>
    simp [main_exit_code, main_startup, pwm_init]

/-- Witness for C10: a failed LED-line lookup still exits with status 0. -/
theorem C10_witness :
    main_exit_code ⟨true, false, true, true, true, true, true⟩ = 0 :=
  (C10_exit_status true false true true true true true).2 rfl

end PwmControl
